import Mathlib

/-!
Shallow embedding of the Sua-Rota route-planning core (TypeScript sources:
`src/types.ts`, `src/services/geoService.ts`, `src/services/routingService.ts`,
`src/services/geminiService.ts` (the current multi-vehicle version shipped in
`src/unnamed/part_000`), `src/App.tsx`, `src/components/Modal.tsx`).

Network calls are abstracted as oracle functions passed in as parameters; a
boolean or list component of the result records which outbound calls were made,
so that "no network call" claims are statable. JavaScript numbers that result
from `parseFloat` are modelled by `JSNum`, which distinguishes NaN and the
infinities from ordinary (rational) values.
-/

/-- Result of JavaScript `parseFloat` on a provider-supplied field: `NaN`,
`Infinity`, `-Infinity`, or an ordinary numeric value (modelled as a rational). -/
inductive JSNum where
  | nan : JSNum
  | posInf : JSNum
  | negInf : JSNum
  | num : ℚ → JSNum
deriving DecidableEq, Repr

/-- JavaScript `isNaN` on an already-numeric value. -/
def JSNum.isNaN : JSNum → Bool
  | .nan => true
  | _ => false

/-- A JavaScript number is finite when it is neither NaN nor an infinity. -/
def JSNum.isFinite : JSNum → Bool
  | .num _ => true
  | _ => false

/-- JavaScript truthiness of a number: `0` and `NaN` are falsy. -/
def JSNum.truthy : JSNum → Bool
  | .nan => false
  | .num q => decide (q ≠ 0)
  | _ => true

/-- `RouteStatus` from `src/types.ts`. -/
inductive RouteStatus where
  | PENDING : RouteStatus
  | COMPLETED : RouteStatus
  | SKIPPED : RouteStatus
deriving DecidableEq, Repr

/-- `AddressData` from `src/types.ts`; `lat`/`lng` are optional numbers. -/
structure AddressData where
  cep : String
  logradouro : String
  bairro : String
  localidade : String
  uf : String
  lat : Option JSNum := none
  lng : Option JSNum := none
deriving DecidableEq, Repr

/-- `TimeWindow` from `src/types.ts`; `end` is a Lean keyword, so the field is
named `endT` (wall-clock strings such as "09:00"). -/
structure TimeWindow where
  start : String
  endT : String
deriving DecidableEq, Repr

/-- `ProofOfDelivery` from `src/types.ts` (`timestamp` is `Date.now()`). -/
structure ProofOfDelivery where
  receiverName : String
  timestamp : Nat
  photoUrl : Option String := none
deriving DecidableEq, Repr

/-- `Destination` from `src/types.ts` (the current, enterprise version).
Leg geometry (a GeoJSON LineString) is modelled as its coordinate list. -/
structure Destination where
  id : String
  cep : String
  address : AddressData
  status : RouteStatus
  order : Nat
  notes : Option String := none
  travelDistance : Option ℚ := none
  travelDuration : Option ℚ := none
  geometry : Option (List (ℚ × ℚ)) := none
  vehicleId : Option String := none
  timeWindow : Option TimeWindow := none
  proofOfDelivery : Option ProofOfDelivery := none
deriving DecidableEq, Repr

/-- `OptimizedRouteAssignment` from `src/types.ts`: one vehicle and its
ordered stop ids. -/
structure OptimizedRouteAssignment where
  vehicleId : String
  stopIds : List String
deriving DecidableEq, Repr

/-- `OptimizationResult` from `src/types.ts` (fleet mode): the Plan Result. -/
structure OptimizationResult where
  assignments : List OptimizedRouteAssignment
  reasoning : String
deriving DecidableEq, Repr

/-! ## Geocoding Resolver (`src/services/geoService.ts`) -/

/-- JavaScript `s.replace(/\D/g, '')`: keep only the decimal digits. -/
def normalizeDigits (s : String) : String :=
  String.mk (s.data.filter Char.isDigit)

/-- `fetchAddressByCep` from `src/services/geoService.ts`. The ViaCEP provider
is the oracle `lookup` (returning `none` for an `erro` payload, a not-found
answer, or a network/parse failure — all of which the source maps to `null`).
The boolean records whether the network request was issued: the source returns
`null` before the `fetch` when the cleaned input is not exactly 8 digits. -/
def fetchAddressByCep (lookup : String → Option AddressData) (cep : String) :
    Option AddressData × Bool :=
  let cleanCep := normalizeDigits cep
  if cleanCep.length ≠ 8 then (none, false)
  else (lookup cleanCep, true)

/-- Everything before the first occurrence of the separator " - "
(JavaScript `s.split(' - ')[0]`). -/
def takeBeforeDashSep : List Char → List Char
  | [] => []
  | ' ' :: '-' :: ' ' :: _ => []
  | c :: rest => c :: takeBeforeDashSep rest

/-- Everything before the first '(' (JavaScript `s.split('(')[0]`). -/
def takeBeforeParen : List Char → List Char
  | [] => []
  | '(' :: _ => []
  | c :: rest => c :: takeBeforeParen rest

/-- The street-name cleanup at the top of `fetchCoordinates`:
`address.logradouro.split(' - ')[0]`, then `.split('(')[0].trim()`. -/
def cleanLogradouro (logradouro : String) : String :=
  (String.mk (takeBeforeParen (takeBeforeDashSep logradouro.data))).trim

/-- JavaScript `s.replace('-', '')`: remove only the first hyphen. -/
def removeFirstHyphen : List Char → List Char
  | [] => []
  | '-' :: rest => rest
  | c :: rest => c :: removeFirstHyphen rest

/-- One query of the geocoding cascade, tagged as in the source's `queries`
array; only the variable request parameters are carried (the constant
`country=Brazil&format=json&limit=1` parts are omitted). -/
inductive GeoQuery where
  | cep (postalcode : String) : GeoQuery
  | street_structured (street city state : String) : GeoQuery
  | street_query (q : String) : GeoQuery
  | city_fallback (city state : String) : GeoQuery
deriving DecidableEq, Repr

/-- The `queries` array built at the top of `fetchCoordinates` in
`src/services/geoService.ts`, in source order: (1) postal code alone,
(2) structured street+city+state, (3) free-text "street, city, state",
(4) structured city+state (city-centre last resort). -/
def buildQueries (address : AddressData) : List GeoQuery :=
  [ GeoQuery.cep (String.mk (removeFirstHyphen address.cep.data)),
    GeoQuery.street_structured (cleanLogradouro address.logradouro)
      address.localidade address.uf,
    GeoQuery.street_query
      (cleanLogradouro address.logradouro ++ ", " ++ address.localidade ++ ", "
        ++ address.uf),
    GeoQuery.city_fallback address.localidade address.uf ]

/-- The per-strategy acceptance check in the cascade loop: the response must
exist (no exception, modelled by `none`), be non-empty, and its first entry's
coordinates must both satisfy `!isNaN` after `parseFloat`. The oracle's list
entries are the already-parsed `(lat, lon)` pairs of the JSON response. -/
def acceptResult (r : Option (List (JSNum × JSNum))) : Option (JSNum × JSNum) :=
  match r with
  | none => none
  | some [] => none
  | some (c :: _) => if (!c.1.isNaN && !c.2.isNaN) then some c else none

/-- The `for (const query of queries)` loop of `fetchCoordinates`: try each
query in order, return the first accepted coordinate pair. The second
component records the queries actually sent to the provider (each iteration
issues exactly one request before checking its response). -/
def cascadeGo (resp : GeoQuery → Option (List (JSNum × JSNum))) :
    List GeoQuery → Option (JSNum × JSNum) × List GeoQuery
  | [] => (none, [])
  | q :: qs =>
    match acceptResult (resp q) with
    | some c => (some c, [q])
    | none =>
      let r := cascadeGo resp qs
      (r.1, q :: r.2)

/-- `fetchCoordinates` from `src/services/geoService.ts`: build the strategy
list and run the cascade; `none` when every strategy exhausts. -/
def fetchCoordinates (resp : GeoQuery → Option (List (JSNum × JSNum)))
    (address : AddressData) : Option (JSNum × JSNum) × List GeoQuery :=
  cascadeGo resp (buildQueries address)

/-! ## Order/Assignment Planner (`src/services/geminiService.ts`, current
multi-vehicle version) -/

/-- `optimizeRoute` from the current `geminiService.ts`. The external
reasoning service is the oracle `ai`: `some r` is a successfully parsed
schema-conforming response, `none` is any failure (error, timeout, empty or
unparsable payload). The boolean records whether the external call was made:
the source returns early (no call) only when the destination list is empty.
The vehicle count and the prompt contents only shape the request, which the
oracle absorbs. -/
def optimizeRoute (ai : Option OptimizationResult)
    (destinations : List Destination) : OptimizationResult × Bool :=
  if destinations.length = 0 then
    ({ assignments := [], reasoning := "" }, false)
  else
    match ai with
    | some r => (r, true)
    | none =>
      ({ assignments := [{ vehicleId := "Veículo 1",
                           stopIds := destinations.map (·.id) }],
         reasoning := "Falha na IA. Rota sequencial padrão gerada." }, true)

/-! ## Route Segment Service (`src/services/routingService.ts`) -/

/-- Response of one per-leg OSRM request inside `fetchRouteDetails`:
`err` models a thrown fetch/parse exception (which the source's outer `catch`
turns into returning the input list), `noRoute` models `code !== 'Ok'` or an
empty `routes` array, and `route` carries `routes[0]`'s distance, duration and
GeoJSON geometry. -/
inductive LegResp where
  | err : LegResp
  | noRoute : LegResp
  | route (distance duration : ℚ) (geometry : List (ℚ × ℚ)) : LegResp
deriving DecidableEq, Repr

/-- The per-leg loop of `fetchRouteDetails`: leg `i` is requested for the
`i`-th destination (the request URL, including the chained `currentOrigin`, is
absorbed by indexing the oracle with the leg position). A `route` answer
overwrites the three leg fields, `noRoute` pushes the destination unchanged,
and `err` aborts the whole loop (`none`), matching the exception reaching the
outer `catch`. -/
def runLegs (legResp : Nat → LegResp) :
    Nat → List Destination → Option (List Destination)
  | _, [] => some []
  | i, dest :: rest =>
    match legResp i with
    | .err => none
    | .noRoute => (runLegs legResp (i + 1) rest).map (fun l => dest :: l)
    | .route dist dur geom =>
      (runLegs legResp (i + 1) rest).map (fun l =>
        { dest with travelDistance := some dist, travelDuration := some dur,
                    geometry := some geom } :: l)

/-- `fetchRouteDetails` from `src/services/routingService.ts`. `initialOk`
is the outcome of the initial combined-route request (`false` for
`code !== 'Ok'`, missing/empty `routes`, or a thrown exception — all of which
make the source return the input list). A mid-loop exception (`LegResp.err`)
also returns the input list via the outer `catch`. -/
def fetchRouteDetails (initialOk : Bool) (legResp : Nat → LegResp)
    (destinations : List Destination) : List Destination :=
  if destinations.length = 0 then destinations
  else if !initialOk then destinations
  else
    match runLegs legResp 0 destinations with
    | none => destinations
    | some l => l

/-! ## Itinerary Reconciler and Orchestrator (`src/App.tsx`) -/

/-- The flattening loop over `result.assignments` in `handleOptimize`
(`src/App.tsx`): for each assignment, map each stop id to its Pending stop
(`find`), drop ids with no match (`filter(!!d)`), and overwrite the vehicle
label. -/
def plannerPlaced (pendingDestinations : List Destination)
    (assignments : List OptimizedRouteAssignment) : List Destination :=
  (assignments.map (fun assignment =>
    (assignment.stopIds.filterMap (fun i =>
        pendingDestinations.find? (fun d => d.id = i))).map
      (fun d => { d with vehicleId := some assignment.vehicleId }))).flatten

/-- The reconciliation step of `handleOptimize` (`src/App.tsx`): planner-placed
stops first, then every Pending stop whose id was not placed (`processedIds`),
in its prior relative order. -/
def reconcile (pendingDestinations : List Destination)
    (assignments : List OptimizedRouteAssignment) : List Destination :=
  let newOrderedList := plannerPlaced pendingDestinations assignments
  let processedIds := newOrderedList.map (·.id)
  newOrderedList ++
    pendingDestinations.filter (fun d => !(processedIds.contains d.id))

/-- All stop ids referenced by a Plan Result's assignments, in order. -/
def referencedIds (assignments : List OptimizedRouteAssignment) : List String :=
  (assignments.map (·.stopIds)).flatten

/-- `handleOptimize` from `src/App.tsx`: partition by status, plan over the
Pending part, reconcile, fetch leg details when a current location is known
and the list is non-empty, and put Completed stops back in front. -/
def handleOptimize (currentLocation : Option (JSNum × JSNum))
    (ai : Option OptimizationResult) (initialOk : Bool)
    (legResp : Nat → LegResp) (destinations : List Destination) :
    List Destination :=
  let pendingDestinations :=
    destinations.filter (fun d => d.status ≠ RouteStatus.COMPLETED)
  let completedDestinations :=
    destinations.filter (fun d => d.status = RouteStatus.COMPLETED)
  let result := (optimizeRoute ai pendingDestinations).1
  let newOrderedList := reconcile pendingDestinations result.assignments
  let newOrderedList2 :=
    match currentLocation with
    | some _ =>
      if newOrderedList.length > 0 then
        fetchRouteDetails initialOk legResp newOrderedList
      else newOrderedList
    | none => newOrderedList
  completedDestinations ++ newOrderedList2

/-- The format-validation pass of `handleAddCep` (`src/App.tsx`): clean each
raw input and keep those that reduce to exactly 8 digits. -/
def validCeps (rawInputs : List String) : List String :=
  (rawInputs.map (fun raw => normalizeDigits raw)).filter
    (fun clean => clean.length = 8)

/-- The new Destination built in `handleAddCep` when both the address lookup
and the geocoding succeed. -/
def mkDest (idStr : String) (address : AddressData) (coords : JSNum × JSNum)
    (orderN : Nat) (numberOfVehicles : Nat) : Destination :=
  { id := idStr,
    cep := address.cep,
    address := { address with lat := some coords.1, lng := some coords.2 },
    status := RouteStatus.PENDING,
    order := orderN,
    notes := some "",
    vehicleId := some (if numberOfVehicles > 1 then "Pendente" else "Veículo 1") }

/-- The `for` loop of `handleAddCep` (`src/App.tsx`) over the valid ceps:
a failed address lookup skips the code; a successful lookup whose geocoding
cascade exhausts only logs a warning and skips the code; otherwise a new
Pending stop is appended. `idGen` models `crypto.randomUUID()`, indexed by the
number of stops created so far; `acc` is the list of stops created by this
batch and `successCount` its length. -/
def handleAddCepLoop (lookup : String → Option AddressData)
    (resp : GeoQuery → Option (List (JSNum × JSNum))) (idGen : Nat → String)
    (numberOfVehicles : Nat) (destinations0 : List Destination) :
    List String → List Destination → Nat → List Destination
  | [], acc, _ => acc
  | cep :: rest, acc, successCount =>
    match (fetchAddressByCep lookup cep).1 with
    | none =>
      handleAddCepLoop lookup resp idGen numberOfVehicles destinations0
        rest acc successCount
    | some address =>
      match (fetchCoordinates resp address).1 with
      | none =>
        handleAddCepLoop lookup resp idGen numberOfVehicles destinations0
          rest acc successCount
      | some coords =>
        handleAddCepLoop lookup resp idGen numberOfVehicles destinations0
          rest
          (acc ++ [mkDest (idGen successCount) address coords
            (destinations0.length + successCount) numberOfVehicles])
          (successCount + 1)

/-- `handleAddCep` from `src/App.tsx` (the batch intake): validate formats,
then process each valid cep in order, appending created stops incrementally
after the existing collection. -/
def handleAddCep (lookup : String → Option AddressData)
    (resp : GeoQuery → Option (List (JSNum × JSNum))) (idGen : Nat → String)
    (numberOfVehicles : Nat) (destinations : List Destination)
    (rawInputs : List String) : List Destination :=
  destinations ++
    handleAddCepLoop lookup resp idGen numberOfVehicles destinations
      (validCeps rawInputs) [] 0

/-- `handleDuplicateDestination` from `src/App.tsx`: append a copy of `dest`
with a fresh id (`newId` models `crypto.randomUUID()`), Pending status, no
proof of delivery, order set past the end, and a "(Cópia)" note suffix when a
non-empty note exists (JavaScript truthiness on `dest.notes`). -/
def handleDuplicateDestination (destinations : List Destination)
    (dest : Destination) (newId : String) : List Destination :=
  let newDest : Destination :=
    { dest with
      id := newId,
      status := RouteStatus.PENDING,
      proofOfDelivery := none,
      order := destinations.length + 1,
      notes := match dest.notes with
        | some n => if n ≠ "" then some (n ++ " (Cópia)") else some ""
        | none => some "" }
  destinations ++ [newDest]

/-- JavaScript `<` on strings: lexicographic comparison of the character
sequences (identical to Lean's `String` order on these time strings; defined
structurally so proofs can evaluate it). -/
def jsStrLtAux : List Char → List Char → Bool
  | [], [] => false
  | [], _ :: _ => true
  | _ :: _, [] => false
  | a :: as, b :: bs =>
    if a < b then true
    else if b < a then false
    else jsStrLtAux as bs

/-- JavaScript `s < t` on strings. -/
def jsStrLt (s t : String) : Bool :=
  jsStrLtAux s.data t.data

/-- `handleSaveTimeWindow` from `src/components/Modal.tsx` composed with
`handleUpdateTimeWindow` from `src/App.tsx`: when both fields are non-empty
(JavaScript truthiness) and `startTime >= endTime` (string comparison), the
edit is rejected with a validation message and the collection is untouched;
when `startTime < endTime` the stop's time window is updated. With one or both
fields empty, nothing happens. The second component is the resulting
`timeWindowError` state (reset to `null` on entry by the source). -/
def handleSaveTimeWindow (destinations : List Destination) (destId : String)
    (startTime endTime : String) : List Destination × Option String :=
  if startTime ≠ "" ∧ endTime ≠ "" then
    if !(jsStrLt startTime endTime) then
      (destinations, some "O horário final deve ser posterior ao inicial.")
    else
      (destinations.map (fun d =>
        if d.id = destId then
          { d with timeWindow := some { start := startTime, endT := endTime } }
        else d), none)
  else (destinations, none)

/-- Modelled from the spec: the geocoding cascade order as §4.1 of the spec
states it — (1) structured street+locality+region, (2) postal code alone,
(3) free-text "street, locality, region", (4) free-text
"district, locality, region". Written only for comparison with
`buildQueries`, which is translated from the source. -/
def specClaimedQueries (address : AddressData) : List GeoQuery :=
  [ GeoQuery.street_structured (cleanLogradouro address.logradouro)
      address.localidade address.uf,
    GeoQuery.cep (String.mk (removeFirstHyphen address.cep.data)),
    GeoQuery.street_query
      (cleanLogradouro address.logradouro ++ ", " ++ address.localidade ++ ", "
        ++ address.uf),
    GeoQuery.street_query
      (address.bairro ++ ", " ++ address.localidade ++ ", " ++ address.uf) ]

/-! ## Sample data for witnesses and counterexamples -/

/-- A concrete resolved address (the spec's scenario cep "01310-100"). -/
def sampleAddress : AddressData :=
  { cep := "01310-100", logradouro := "Avenida Paulista",
    bairro := "Bela Vista", localidade := "São Paulo", uf := "SP" }

/-- A concrete Pending stop with id "a". -/
def sampleDest : Destination :=
  { id := "a", cep := "01310100", address := sampleAddress,
    status := RouteStatus.PENDING, order := 0, notes := some "",
    vehicleId := some "Veículo 1" }

/-- A second concrete Pending stop with id "b". -/
def sampleDest2 : Destination :=
  { sampleDest with id := "b", order := 1 }

/-- A concrete Completed stop with id "c" and a proof of delivery. -/
def sampleCompleted : Destination :=
  { sampleDest with
    id := "c",
    order := 2,
    status := RouteStatus.COMPLETED,
    proofOfDelivery := some { receiverName := "Maria", timestamp := 1700000000000 } }

/-- A coordinate-provider oracle for witnesses: only the structured street
strategy answers (with ordinary finite coordinates). -/
def respStructuredOnly : GeoQuery → Option (List (JSNum × JSNum))
  | GeoQuery.street_structured _ _ _ => some [(JSNum.num 1, JSNum.num 2)]
  | _ => none

/-- A route-leg oracle for witnesses: the first leg has no route, every later
leg succeeds. -/
def legNoRouteAt0 : Nat → LegResp :=
  fun i => if i = 0 then LegResp.noRoute else LegResp.route 100 60 [(1, 2)]

/-! ## Theorems -/

/-- C2 counterexample: the cascade does not try the structured street query
first, as the claim states. At a concrete address the source's first strategy
is the postal-code query, so the source's query list differs from the claimed
order (`specClaimedQueries`). -/
theorem C2_cex_cascade_order :
    ¬ (∀ address : AddressData,
        buildQueries address = specClaimedQueries address) := by
  intro h
  have hs := h sampleAddress
  simp [buildQueries, specClaimedQueries] at hs

/-- C2 (amended): the geocoding cascade tries its strategies in exactly this
order — (1) query by postal code alone, (2) structured query by cleaned street
name + locality + region, (3) free-text query of "street, locality, region",
(4) structured locality + region query (city-centre fallback). When every
strategy fails, exactly these four queries are sent, in this order. -/
theorem C2_cascade_order (resp : GeoQuery → Option (List (JSNum × JSNum)))
    (address : AddressData) (h : ∀ q, acceptResult (resp q) = none) :
    fetchCoordinates resp address =
      (none,
        [ GeoQuery.cep (String.mk (removeFirstHyphen address.cep.data)),
          GeoQuery.street_structured (cleanLogradouro address.logradouro)
            address.localidade address.uf,
          GeoQuery.street_query
            (cleanLogradouro address.logradouro ++ ", " ++ address.localidade
              ++ ", " ++ address.uf),
          GeoQuery.city_fallback address.localidade address.uf ]) := by
  simp [fetchCoordinates, buildQueries, cascadeGo, h]

/-- Witness for C2: with a provider that always fails, the cascade on the
sample address sends exactly the four queries in source order. -/
theorem C2_cascade_order_witness :
    fetchCoordinates (fun _ => none) sampleAddress =
      (none, buildQueries sampleAddress) :=
  C2_cascade_order (fun _ => none) sampleAddress (fun _ => rfl)

/-- C4 counterexample: for exactly one pending stop the planner still invokes
the external reasoning service (the source only short-circuits on an empty
list), contradicting the claim's "no external call for one stop". -/
theorem C4_cex_single_stop_calls :
    ¬ (∀ (ai : Option OptimizationResult) (destinations : List Destination),
        destinations.length ≤ 1 → (optimizeRoute ai destinations).2 = false) := by
  intro h
  have hs := h none [sampleDest] (by simp)
  simp [optimizeRoute] at hs

/-- C4 (amended): for zero pending stops the planner returns the empty Plan
Result without invoking the external service; for any non-empty pending list —
including a single stop — the external service is invoked, and when it fails
the deterministic fallback assigns all stops, in current order, to
"Veículo 1". -/
theorem C4_trivial_inputs (ai : Option OptimizationResult)
    (destinations : List Destination) :
    (destinations = [] →
      optimizeRoute ai destinations =
        ({ assignments := [], reasoning := "" }, false)) ∧
    (destinations ≠ [] → (optimizeRoute ai destinations).2 = true) ∧
    (destinations ≠ [] → ai = none →
      (optimizeRoute ai destinations).1 =
        { assignments := [{ vehicleId := "Veículo 1",
                            stopIds := destinations.map Destination.id }],
          reasoning := "Falha na IA. Rota sequencial padrão gerada." }) := by
  refine ⟨fun h => ?_, fun h => ?_, fun h ha => ?_⟩
  · simp [optimizeRoute, h]
  · cases ai <;> simp [optimizeRoute, h]
  · subst ha
    simp [optimizeRoute, h]

/-- Witness for C4: the empty batch makes no call; a singleton batch does. -/
theorem C4_trivial_inputs_witness :
    (optimizeRoute none ([] : List Destination) =
      ({ assignments := [], reasoning := "" }, false)) ∧
    (([sampleDest] : List Destination) ≠ [] ∧
      (optimizeRoute none [sampleDest]).2 = true) :=
  ⟨(C4_trivial_inputs none []).1 rfl,
   ⟨by simp, (C4_trivial_inputs none [sampleDest]).2.1 (by simp)⟩⟩

/-- C5: a raw input that does not normalize to exactly 8 digits is rejected
before the address-lookup request is made; an input that does normalize to
8 digits always reaches the network (no format rejection). -/
theorem C5_cep_format_gate (lookup : String → Option AddressData) (s : String) :
    ((normalizeDigits s).length ≠ 8 →
      fetchAddressByCep lookup s = (none, false)) ∧
    ((normalizeDigits s).length = 8 →
      (fetchAddressByCep lookup s).2 = true) := by
  constructor <;> intro h <;> simp [fetchAddressByCep, normalizeDigits] at h ⊢ <;>
    simp [h]

/-- Witness for C5: "123" is rejected without a network call; "01310-100"
reaches the network. -/
theorem C5_cep_format_gate_witness :
    ((normalizeDigits "123").length ≠ 8 ∧
      fetchAddressByCep (fun _ => none) "123" = (none, false)) ∧
    ((normalizeDigits "01310-100").length = 8 ∧
      (fetchAddressByCep (fun _ => none) "01310-100").2 = true) :=
  ⟨⟨by decide, (C5_cep_format_gate (fun _ => none) "123").1 (by decide)⟩,
   ⟨by decide, (C5_cep_format_gate (fun _ => none) "01310-100").2 (by decide)⟩⟩

/-- C9: a time-window edit with both fields filled and end ≤ start (that is,
not start < end, in string order) is rejected with a synchronous validation
message and the collection is left unchanged; an edit with start strictly
before end is saved onto the addressed stop. -/
theorem C9_time_window_validation (destinations : List Destination)
    (destId startTime endTime : String)
    (hs : startTime ≠ "") (he : endTime ≠ "") :
    (jsStrLt startTime endTime = false →
      handleSaveTimeWindow destinations destId startTime endTime =
        (destinations, some "O horário final deve ser posterior ao inicial.")) ∧
    (jsStrLt startTime endTime = true →
      handleSaveTimeWindow destinations destId startTime endTime =
        (destinations.map (fun d =>
          if d.id = destId then
            { d with timeWindow := some { start := startTime, endT := endTime } }
          else d), none)) := by
  constructor <;> intro h <;> simp [handleSaveTimeWindow, hs, he, h]

/-- Witness for C9: start "18:00", end "09:00" is rejected and the stop list
is unchanged; start "09:00", end "18:00" is saved. -/
theorem C9_time_window_validation_witness :
    (("18:00" : String) ≠ "" ∧ ("09:00" : String) ≠ "" ∧
      jsStrLt "18:00" "09:00" = false ∧
      handleSaveTimeWindow [sampleDest] "a" "18:00" "09:00" =
        ([sampleDest], some "O horário final deve ser posterior ao inicial.")) ∧
    (jsStrLt "09:00" "18:00" = true ∧
      handleSaveTimeWindow [sampleDest] "a" "09:00" "18:00" =
        ([sampleDest].map (fun d =>
          if d.id = "a" then
            { d with timeWindow := some { start := "09:00", endT := "18:00" } }
          else d), none)) :=
  ⟨⟨by decide, by decide, by decide,
    (C9_time_window_validation [sampleDest] "a" "18:00" "09:00"
      (by decide) (by decide)).1 (by decide)⟩,
   ⟨by decide,
    (C9_time_window_validation [sampleDest] "a" "09:00" "18:00"
      (by decide) (by decide)).2 (by decide)⟩⟩

/-- C10: duplicating a stop appends exactly one new stop that carries a fresh
identifier (modelled: `crypto.randomUUID()` yields an id not in the
collection), Pending status, no proof of delivery, and copies the original's
postal code, address (with its coordinates), vehicle label and time window;
the original and every other stop are left unchanged. -/
theorem C10_duplicate_appends_fresh (destinations : List Destination)
    (dest : Destination) (newId : String)
    (hfresh : newId ∉ destinations.map Destination.id) :
    ∃ nd : Destination,
      handleDuplicateDestination destinations dest newId =
        destinations ++ [nd] ∧
      nd.id = newId ∧
      nd.id ∉ destinations.map Destination.id ∧
      nd.status = RouteStatus.PENDING ∧
      nd.proofOfDelivery = none ∧
      nd.cep = dest.cep ∧
      nd.address = dest.address ∧
      nd.vehicleId = dest.vehicleId ∧
      nd.timeWindow = dest.timeWindow := by
  exact ⟨_, rfl, rfl, hfresh, rfl, rfl, rfl, rfl, rfl, rfl⟩

/-- Witness for C10: duplicating the sample stop with fresh id "z". -/
theorem C10_duplicate_appends_fresh_witness :
    ("z" ∉ [sampleDest].map Destination.id) ∧
    (∃ nd : Destination,
      handleDuplicateDestination [sampleDest] sampleDest "z" =
        [sampleDest] ++ [nd] ∧
      nd.id = "z" ∧
      nd.id ∉ [sampleDest].map Destination.id ∧
      nd.status = RouteStatus.PENDING ∧
      nd.proofOfDelivery = none ∧
      nd.cep = sampleDest.cep ∧
      nd.address = sampleDest.address ∧
      nd.vehicleId = sampleDest.vehicleId ∧
      nd.timeWindow = sampleDest.timeWindow) :=
  ⟨by decide, C10_duplicate_appends_fresh [sampleDest] sampleDest "z" (by decide)⟩

/-- C3 counterexample: a code whose address lookup succeeds but whose whole
geocoding cascade exhausts does NOT yield a retained Stop — the source skips
the code entirely, so no stop for that code appears in the collection. -/
theorem C3_cex_stop_not_retained :
    ¬ (∀ (lookup : String → Option AddressData)
         (resp : GeoQuery → Option (List (JSNum × JSNum)))
         (idGen : Nat → String) (numberOfVehicles : Nat) (cep : String)
         (a : AddressData),
        (fetchAddressByCep lookup cep).1 = some a →
        (fetchCoordinates resp a).1 = none →
        ∃ d ∈ handleAddCep lookup resp idGen numberOfVehicles [] [cep],
          d.cep = a.cep) := by
  intro h
  obtain ⟨d, hd, -⟩ := h (fun _ => some sampleAddress) (fun _ => none)
    (fun _ => "u") 1 "01310-100" sampleAddress (by decide) rfl
  have hempty : handleAddCep (fun _ => some sampleAddress) (fun _ => none)
      (fun _ => "u") 1 [] ["01310-100"] = [] := by decide
  rw [hempty] at hd
  simp at hd

/-- C3 (amended): when a code's address lookup succeeds but its geocoding
cascade exhausts, the Stop is NOT created — the source logs a warning, skips
the code, and the batch continues with the remaining codes, its state
unchanged. -/
theorem C3_geocode_exhaust_skips (lookup : String → Option AddressData)
    (resp : GeoQuery → Option (List (JSNum × JSNum))) (idGen : Nat → String)
    (numberOfVehicles : Nat) (destinations0 : List Destination) (cep : String)
    (rest : List String) (acc : List Destination) (successCount : Nat)
    (a : AddressData)
    (h1 : (fetchAddressByCep lookup cep).1 = some a)
    (h2 : (fetchCoordinates resp a).1 = none) :
    handleAddCepLoop lookup resp idGen numberOfVehicles destinations0
        (cep :: rest) acc successCount =
      handleAddCepLoop lookup resp idGen numberOfVehicles destinations0
        rest acc successCount := by
  simp only [handleAddCepLoop, h1, h2]

/-- Witness for C3: a concrete run where the lookup succeeds, the cascade
exhausts, and processing the code leaves the batch state unchanged. -/
theorem C3_geocode_exhaust_skips_witness :
    ((fetchAddressByCep (fun _ => some sampleAddress) "01310-100").1 =
      some sampleAddress) ∧
    ((fetchCoordinates (fun _ => none) sampleAddress).1 = none) ∧
    handleAddCepLoop (fun _ => some sampleAddress) (fun _ => none)
        (fun _ => "u") 1 [] ["01310-100"] [] 0 =
      handleAddCepLoop (fun _ => some sampleAddress) (fun _ => none)
        (fun _ => "u") 1 [] [] [] 0 :=
  ⟨by decide, rfl,
    C3_geocode_exhaust_skips (fun _ => some sampleAddress) (fun _ => none)
      (fun _ => "u") 1 [] "01310-100" [] [] 0 sampleAddress (by decide) rfl⟩

/-- Accepted cascade results have non-NaN coordinates (the source's check). -/
theorem acceptResult_not_nan {r : Option (List (JSNum × JSNum))}
    {c : JSNum × JSNum} (h : acceptResult r = some c) :
    c.1.isNaN = false ∧ c.2.isNaN = false := by
  cases r with
  | none => simp [acceptResult] at h
  | some l =>
    cases l with
    | nil => simp [acceptResult] at h
    | cons x xs =>
      simp only [acceptResult] at h
      split at h
      · next hb =>
        cases h
        simp only [Bool.and_eq_true, Bool.not_eq_true'] at hb
        exact hb
      · exact absurd h (by simp)

/-- The cascade loop only ever returns a value accepted by the non-NaN check. -/
theorem cascadeGo_some_not_nan
    (resp : GeoQuery → Option (List (JSNum × JSNum))) :
    ∀ (l : List GeoQuery) (c : JSNum × JSNum),
      (cascadeGo resp l).1 = some c → c.1.isNaN = false ∧ c.2.isNaN = false := by
  intro l
  induction l with
  | nil => intro c h; simp [cascadeGo] at h
  | cons q qs ih =>
    intro c h
    simp only [cascadeGo] at h
    cases hq : acceptResult (resp q) with
    | some c' =>
      rw [hq] at h
      simp at h
      cases h
      exact acceptResult_not_nan hq
    | none =>
      rw [hq] at h
      exact ih c h

/-- The cascade stops at the first accepted strategy: if strategy `k` is
accepted and every earlier strategy was not, the loop returns strategy `k`'s
coordinates having invoked exactly strategies `0..k`. -/
theorem cascadeGo_first_success
    (resp : GeoQuery → Option (List (JSNum × JSNum))) :
    ∀ (l : List GeoQuery) (k : Nat) (q : GeoQuery) (c : JSNum × JSNum),
      l[k]? = some q → acceptResult (resp q) = some c →
      (∀ qj ∈ l.take k, acceptResult (resp qj) = none) →
      cascadeGo resp l = (some c, l.take (k + 1)) := by
  intro l
  induction l with
  | nil => intro k q c hk; simp at hk
  | cons x xs ih =>
    intro k q c hk hq hnone
    cases k with
    | zero =>
      simp at hk
      subst hk
      simp [cascadeGo, hq]
    | succ k =>
      have hx : acceptResult (resp x) = none := by
        apply hnone
        simp [List.take_succ_cons]
      have hr := ih k q c (by simpa using hk) hq
        (fun qj hqj => hnone qj (by simp [List.take_succ_cons, hqj]))
      simp only [cascadeGo, hx, List.take_succ_cons]
      rw [hr]

/-- C6 counterexample: the cascade's acceptance check is `!isNaN`, not
finiteness — a strategy whose first result parses to `Infinity` is accepted
and returned, contradicting "accepted only if both coordinates parse as
finite numbers". -/
theorem C6_cex_infinite_accepted :
    ¬ (∀ (resp : GeoQuery → Option (List (JSNum × JSNum)))
         (address : AddressData) (c : JSNum × JSNum),
        (fetchCoordinates resp address).1 = some c →
        c.1.isFinite = true ∧ c.2.isFinite = true) := by
  intro h
  have hs := h (fun _ => some [(JSNum.posInf, JSNum.num 0)]) sampleAddress
    (JSNum.posInf, JSNum.num 0) rfl
  simp [JSNum.isFinite] at hs

/-- C6 (amended): a strategy's result is accepted only if both coordinates
parse as non-NaN numbers (infinite values are also accepted), and as soon as
strategy `k` yields an accepted result the cascade returns those coordinates
and the later strategies are never invoked: exactly the first `k+1` queries
are sent. -/
theorem C6_accept_and_first_success
    (resp : GeoQuery → Option (List (JSNum × JSNum))) (address : AddressData) :
    (∀ c, (fetchCoordinates resp address).1 = some c →
      c.1.isNaN = false ∧ c.2.isNaN = false) ∧
    (∀ k q c, (buildQueries address)[k]? = some q →
      acceptResult (resp q) = some c →
      (∀ qj ∈ (buildQueries address).take k, acceptResult (resp qj) = none) →
      fetchCoordinates resp address =
        (some c, (buildQueries address).take (k + 1))) :=
  ⟨fun c h => cascadeGo_some_not_nan resp (buildQueries address) c h,
   fun k q c hk hq hnone =>
     cascadeGo_first_success resp (buildQueries address) k q c hk hq hnone⟩

/-- Witness for C6: with a provider where only the structured street strategy
(position 1) answers, the cascade returns its coordinates after sending
exactly the first two queries. -/
theorem C6_accept_and_first_success_witness :
    ((buildQueries sampleAddress)[1]? =
      some (GeoQuery.street_structured (cleanLogradouro "Avenida Paulista")
        "São Paulo" "SP")) ∧
    (acceptResult (respStructuredOnly
        (GeoQuery.street_structured (cleanLogradouro "Avenida Paulista")
          "São Paulo" "SP")) =
      some (JSNum.num 1, JSNum.num 2)) ∧
    (∀ qj ∈ (buildQueries sampleAddress).take 1,
      acceptResult (respStructuredOnly qj) = none) ∧
    fetchCoordinates respStructuredOnly sampleAddress =
      (some (JSNum.num 1, JSNum.num 2), (buildQueries sampleAddress).take 2) :=
  ⟨rfl, rfl,
   by intro qj hqj; simp [buildQueries] at hqj; subst hqj; rfl,
   (C6_accept_and_first_success respStructuredOnly sampleAddress).2 1 _ _ rfl rfl
     (by intro qj hqj; simp [buildQueries] at hqj; subst hqj; rfl)⟩

/-- The per-leg loop leaves a destination untouched at every position whose
leg request returned no route. -/
theorem runLegs_noRoute_frame (legResp : Nat → LegResp) :
    ∀ (dests : List Destination) (s : Nat) (out : List Destination),
      runLegs legResp s dests = some out →
      ∀ k, legResp (s + k) = LegResp.noRoute → out[k]? = dests[k]? := by
  intro dests
  induction dests with
  | nil =>
    intro s out h k hk
    simp [runLegs] at h
    subst h
    rfl
  | cons d rest ih =>
    intro s out h k hk
    simp only [runLegs] at h
    cases hl : legResp s with
    | err => rw [hl] at h; simp at h
    | noRoute =>
      rw [hl] at h
      rw [Option.map_eq_some'] at h
      obtain ⟨t, ht, rfl⟩ := h
      cases k with
      | zero => simp
      | succ k =>
        have hk' : legResp (s + 1 + k) = LegResp.noRoute := by
          have : s + 1 + k = s + (k + 1) := by omega
          rw [this]; exact hk
        simpa using ih (s + 1) t ht k hk'
    | route dist dur geom =>
      rw [hl] at h
      rw [Option.map_eq_some'] at h
      obtain ⟨t, ht, rfl⟩ := h
      cases k with
      | zero =>
        rw [Nat.add_zero, hl] at hk
        exact absurd hk (by simp)
      | succ k =>
        have hk' : legResp (s + 1 + k) = LegResp.noRoute := by
          have : s + 1 + k = s + (k + 1) := by omega
          rw [this]; exact hk
        simpa using ih (s + 1) t ht k hk'

/-- C8: a failed initial combined request returns the input list unchanged; a
mid-loop exception returns the input list unchanged; and a per-leg request
that returns no route leaves that stop — its travel-distance, travel-duration
and geometry fields included — exactly as it was. -/
theorem C8_leg_failures_frame (legResp : Nat → LegResp)
    (destinations : List Destination) :
    (fetchRouteDetails false legResp destinations = destinations) ∧
    (runLegs legResp 0 destinations = none →
      fetchRouteDetails true legResp destinations = destinations) ∧
    (∀ out, runLegs legResp 0 destinations = some out →
      ∀ i, legResp i = LegResp.noRoute → out[i]? = destinations[i]?) := by
  refine ⟨?_, ?_, ?_⟩
  · unfold fetchRouteDetails
    split
    · rfl
    · simp
  · intro h
    unfold fetchRouteDetails
    split
    · rfl
    · rw [h]
      simp
  · intro out h i hi
    exact runLegs_noRoute_frame legResp destinations 0 out h i
      (by simpa using hi)

/-- Witness for C8: with the first leg missing a route and the second
succeeding, the first stop comes back bit-for-bit unchanged. -/
theorem C8_leg_failures_frame_witness :
    (runLegs legNoRouteAt0 0 [sampleDest, sampleDest2] =
      some [sampleDest,
        { sampleDest2 with
          travelDistance := some 100,
          travelDuration := some 60,
          geometry := some [(1, 2)] }]) ∧
    legNoRouteAt0 0 = LegResp.noRoute ∧
    ([sampleDest,
      { sampleDest2 with
        travelDistance := some 100,
        travelDuration := some 60,
        geometry := some [(1, 2)] }][0]? =
      [sampleDest, sampleDest2][0]?) :=
  ⟨rfl, rfl,
   (C8_leg_failures_frame legNoRouteAt0 [sampleDest, sampleDest2]).2.2 _ rfl
     0 rfl⟩

/-- Every planner-placed stop is a Pending stop with only its vehicle label
rewritten. -/
theorem mem_plannerPlaced {pending : List Destination}
    {asgs : List OptimizedRouteAssignment} {d : Destination}
    (hd : d ∈ plannerPlaced pending asgs) :
    ∃ d' ∈ pending, ∃ v, d = { d' with vehicleId := v } := by
  simp only [plannerPlaced, List.mem_flatten, List.mem_map] at hd
  obtain ⟨l, ⟨a, ha, rfl⟩, hdl⟩ := hd
  simp only [List.mem_map, List.mem_filterMap] at hdl
  obtain ⟨x, ⟨i, hi, hfind⟩, rfl⟩ := hdl
  exact ⟨x, List.mem_of_find?_eq_some hfind, some a.vehicleId, rfl⟩

/-- Every stop of the reconciled list carries the status of some Pending
stop. -/
theorem mem_reconcile {pending : List Destination}
    {asgs : List OptimizedRouteAssignment} {d : Destination}
    (hd : d ∈ reconcile pending asgs) :
    ∃ d' ∈ pending, d.status = d'.status := by
  simp only [reconcile, List.mem_append] at hd
  cases hd with
  | inl h =>
    obtain ⟨d', hd', v, rfl⟩ := mem_plannerPlaced h
    exact ⟨d', hd', rfl⟩
  | inr h => exact ⟨d, (List.mem_filter.mp h).1, rfl⟩

/-- The per-leg loop only rewrites leg fields: statuses come from the input. -/
theorem runLegs_status (legResp : Nat → LegResp) :
    ∀ (dests : List Destination) (s : Nat) (out : List Destination),
      runLegs legResp s dests = some out →
      ∀ d ∈ out, ∃ d' ∈ dests, d.status = d'.status := by
  intro dests
  induction dests with
  | nil =>
    intro s out h d hd
    simp [runLegs] at h
    subst h
    simp at hd
  | cons x rest ih =>
    intro s out h d hd
    simp only [runLegs] at h
    cases hl : legResp s with
    | err => rw [hl] at h; simp at h
    | noRoute =>
      rw [hl, Option.map_eq_some'] at h
      obtain ⟨t, ht, rfl⟩ := h
      cases List.mem_cons.mp hd with
      | inl h0 => exact ⟨x, by simp, by rw [h0]⟩
      | inr h0 =>
        obtain ⟨d', hd', hs⟩ := ih (s + 1) t ht d h0
        exact ⟨d', by simp [hd'], hs⟩
    | route dist dur geom =>
      rw [hl, Option.map_eq_some'] at h
      obtain ⟨t, ht, rfl⟩ := h
      cases List.mem_cons.mp hd with
      | inl h0 => exact ⟨x, by simp, by rw [h0]⟩
      | inr h0 =>
        obtain ⟨d', hd', hs⟩ := ih (s + 1) t ht d h0
        exact ⟨d', by simp [hd'], hs⟩

/-- The segment service only rewrites leg fields: statuses come from the
input. -/
theorem fetchRouteDetails_status (initialOk : Bool) (legResp : Nat → LegResp)
    (dests : List Destination) :
    ∀ d ∈ fetchRouteDetails initialOk legResp dests,
      ∃ d' ∈ dests, d.status = d'.status := by
  intro d hd
  unfold fetchRouteDetails at hd
  split at hd
  · exact ⟨d, hd, rfl⟩
  · split at hd
    · exact ⟨d, hd, rfl⟩
    · cases hr : runLegs legResp 0 dests with
      | none => rw [hr] at hd; exact ⟨d, hd, rfl⟩
      | some out => rw [hr] at hd; exact runLegs_status legResp dests 0 out hr d hd

/-- C7: an optimize run (plan, reconcile, segment) keeps every Completed stop
bit-for-bit unchanged and in front: the result is exactly the Completed stops,
in their prior relative order, followed by a rest that contains no Completed
stop. -/
theorem C7_completed_frame (currentLocation : Option (JSNum × JSNum))
    (ai : Option OptimizationResult) (initialOk : Bool)
    (legResp : Nat → LegResp) (destinations : List Destination) :
    ∃ rest,
      handleOptimize currentLocation ai initialOk legResp destinations =
        destinations.filter (fun d => d.status = RouteStatus.COMPLETED) ++
          rest ∧
      ∀ d ∈ rest, d.status ≠ RouteStatus.COMPLETED := by
  refine ⟨_, rfl, ?_⟩
  intro d hd
  have hrec : ∀ x ∈ reconcile
      (destinations.filter (fun d => d.status ≠ RouteStatus.COMPLETED))
      ((optimizeRoute ai
        (destinations.filter
          (fun d => d.status ≠ RouteStatus.COMPLETED))).1.assignments),
      x.status ≠ RouteStatus.COMPLETED := by
    intro x hx
    obtain ⟨d', hd', hstat⟩ := mem_reconcile hx
    rw [hstat]
    have h2 := (List.mem_filter.mp hd').2
    simpa using h2
  cases currentLocation with
  | none => exact hrec d hd
  | some loc =>
    dsimp only at hd
    split at hd
    · obtain ⟨d', hd', hstat⟩ := fetchRouteDetails_status _ _ _ d hd
      rw [hstat]
      exact hrec d' hd'
    · exact hrec d hd

/-- The ids of one assignment's placed block are exactly the requested ids
that resolve in the Pending subset, in request order. -/
theorem plannerPlaced_block_ids (pending : List Destination)
    (ids : List String) (v : String) :
    ((ids.filterMap (fun i => pending.find? (fun d => d.id = i))).map
        (fun d => { d with vehicleId := some v })).map Destination.id =
      ids.filter (fun i => (pending.find? (fun d => d.id = i)).isSome) := by
  induction ids with
  | nil => rfl
  | cons i ids ih =>
    cases hf : pending.find? (fun d => d.id = i) with
    | none => simp [List.filterMap_cons, hf, List.filter_cons, ih]
    | some x =>
      have hx : x.id = i := by simpa using List.find?_some hf
      simp [List.filterMap_cons, hf, List.filter_cons, ih, hx]

/-- The planner-placed ids are the referenced ids filtered to those that
resolve in the Pending subset, in reference order. -/
theorem plannerPlaced_ids (pending : List Destination) :
    ∀ asgs : List OptimizedRouteAssignment,
      (plannerPlaced pending asgs).map Destination.id =
        (referencedIds asgs).filter
          (fun i => (pending.find? (fun d => d.id = i)).isSome) := by
  intro asgs
  induction asgs with
  | nil => rfl
  | cons a asgs ih =>
    have h1 : plannerPlaced pending (a :: asgs) =
        ((a.stopIds.filterMap (fun i =>
            pending.find? (fun d => d.id = i))).map
          (fun d => { d with vehicleId := some a.vehicleId })) ++
          plannerPlaced pending asgs := by
      simp [plannerPlaced]
    have h2 : referencedIds (a :: asgs) = a.stopIds ++ referencedIds asgs := by
      simp [referencedIds]
    rw [h1, List.map_append, plannerPlaced_block_ids, ih, h2,
      List.filter_append]

/-- A stop id is planner-placed exactly when it is referenced by the Plan
Result and exists in the Pending subset. -/
theorem mem_plannerPlaced_ids (pending : List Destination)
    (asgs : List OptimizedRouteAssignment) (i : String) :
    i ∈ (plannerPlaced pending asgs).map Destination.id ↔
      i ∈ referencedIds asgs ∧ i ∈ pending.map Destination.id := by
  rw [plannerPlaced_ids, List.mem_filter]
  constructor
  · rintro ⟨h1, h2⟩
    refine ⟨h1, ?_⟩
    obtain ⟨x, hx, hpx⟩ := List.find?_isSome.mp h2
    simp only [decide_eq_true_eq] at hpx
    exact List.mem_map.mpr ⟨x, hx, hpx⟩
  · rintro ⟨h1, h2⟩
    refine ⟨h1, ?_⟩
    obtain ⟨x, hx, rfl⟩ := List.mem_map.mp h2
    exact List.find?_isSome.mpr ⟨x, hx, by simp⟩

/-- Filtering stops by a predicate on their ids commutes with taking ids. -/
theorem map_id_filter (l : List Destination) (p : String → Bool) :
    (l.filter (fun d => p d.id)).map Destination.id =
      (l.map Destination.id).filter p := by
  induction l with
  | nil => rfl
  | cons d t ih => cases h : p d.id <;> simp [List.filter_cons, h, ih]

/-- C1 counterexample: a Plan Result that references the same Pending id
twice makes the source place that stop twice, so the reconciled output
duplicates a stop id. -/
theorem C1_cex_duplicate_ids :
    ¬ (∀ (pending : List Destination)
         (assignments : List OptimizedRouteAssignment),
        (pending.map Destination.id).Nodup →
        ((reconcile pending assignments).map Destination.id).Nodup) := by
  intro h
  exact absurd
    (h [sampleDest] [{ vehicleId := "Veículo 1", stopIds := ["a", "a"] }]
      (by decide))
    (by decide)

/-- C1 (amended): for a collection with unique ids and a Plan Result whose
referenced ids are duplicate-free, the reconciled Pending part is the
planner-placed stops (ids resolved in the Pending subset, in assignment
order, vehicle label overwritten; unknown ids dropped) followed by exactly
the Pending stops not referenced by the Plan Result, unchanged and in prior
relative order — and the output's ids are a permutation of the input's: no
stop is duplicated or dropped. -/
theorem C1_reconcile_coverage (pending : List Destination)
    (assignments : List OptimizedRouteAssignment)
    (hp : (pending.map Destination.id).Nodup)
    (hr : (referencedIds assignments).Nodup) :
    reconcile pending assignments =
      plannerPlaced pending assignments ++
        pending.filter
          (fun d => !((referencedIds assignments).contains d.id)) ∧
    ((reconcile pending assignments).map Destination.id).Perm
      (pending.map Destination.id) := by
  have heq : reconcile pending assignments =
      plannerPlaced pending assignments ++
        pending.filter
          (fun d => !((referencedIds assignments).contains d.id)) := by
    simp only [reconcile]
    congr 1
    apply List.filter_congr
    intro d hd
    have hdid : d.id ∈ pending.map Destination.id :=
      List.mem_map.mpr ⟨d, hd, rfl⟩
    have hiff : d.id ∈ (plannerPlaced pending assignments).map Destination.id ↔
        d.id ∈ referencedIds assignments := by
      rw [mem_plannerPlaced_ids]
      exact ⟨fun h => h.1, fun h => ⟨h, hdid⟩⟩
    congr 1
    apply Bool.eq_iff_iff.mpr
    constructor
    · intro hcont
      exact List.elem_iff.mpr (hiff.mp (List.elem_iff.mp hcont))
    · intro hcont
      exact List.elem_iff.mpr (hiff.mpr (List.elem_iff.mp hcont))
  refine ⟨heq, ?_⟩
  rw [heq, List.map_append,
    map_id_filter pending (fun i => !((referencedIds assignments).contains i))]
  have hplaced_nodup :
      ((plannerPlaced pending assignments).map Destination.id).Nodup := by
    rw [plannerPlaced_ids]
    exact hr.filter _
  apply List.perm_of_nodup_nodup_toFinset_eq
  · rw [List.nodup_append]
    refine ⟨hplaced_nodup, hp.filter _, ?_⟩
    intro i hi hif
    have h1 : i ∈ referencedIds assignments :=
      ((mem_plannerPlaced_ids pending assignments i).mp hi).1
    have h2 := (List.mem_filter.mp hif).2
    simp at h2
    exact h2 h1
  · exact hp
  · ext x
    simp only [List.mem_toFinset, List.mem_append, List.mem_filter]
    constructor
    · intro hx
      rcases hx with h | h
      · exact ((mem_plannerPlaced_ids pending assignments x).mp h).2
      · exact h.1
    · intro hx
      by_cases hxr : x ∈ referencedIds assignments
      · exact Or.inl ((mem_plannerPlaced_ids pending assignments x).mpr
          ⟨hxr, hx⟩)
      · refine Or.inr ⟨hx, ?_⟩
        simpa using hxr

/-- Witness for C1: a fleet plan placing "b" and referencing the stale id
"zz" over the two-stop collection. -/
theorem C1_reconcile_coverage_witness :
    (([sampleDest, sampleDest2].map Destination.id).Nodup) ∧
    ((referencedIds [{ vehicleId := "Moto A", stopIds := ["b", "zz"] }]).Nodup) ∧
    (reconcile [sampleDest, sampleDest2]
        [{ vehicleId := "Moto A", stopIds := ["b", "zz"] }] =
      plannerPlaced [sampleDest, sampleDest2]
          [{ vehicleId := "Moto A", stopIds := ["b", "zz"] }] ++
        [sampleDest, sampleDest2].filter
          (fun d => !((referencedIds
            [{ vehicleId := "Moto A", stopIds := ["b", "zz"] }]).contains
              d.id)) ∧
      ((reconcile [sampleDest, sampleDest2]
          [{ vehicleId := "Moto A", stopIds := ["b", "zz"] }]).map
        Destination.id).Perm ([sampleDest, sampleDest2].map Destination.id)) :=
  ⟨by decide, by decide,
   C1_reconcile_coverage [sampleDest, sampleDest2]
     [{ vehicleId := "Moto A", stopIds := ["b", "zz"] }] (by decide)
     (by decide)⟩

/-- Witness for C7: a concrete optimize run over one Completed and one
Pending stop. -/
theorem C7_completed_frame_witness :
    ∃ rest,
      handleOptimize none none true legNoRouteAt0
          [sampleCompleted, sampleDest] =
        [sampleCompleted, sampleDest].filter
          (fun d => d.status = RouteStatus.COMPLETED) ++ rest ∧
      ∀ d ∈ rest, d.status ≠ RouteStatus.COMPLETED :=
  C7_completed_frame none none true legNoRouteAt0 [sampleCompleted, sampleDest]
